import Mathlib

/-!
# BankApi: account repository and HTTP handlers

A shallow embedding of `accountRepository.go`, `types.go` and the handlers of
`api.go`.  The Go code talks to a SQL Server database through `database/sql`;
the database server is represented by an arbitrary `Server` (a state type and
the answers it gives to statements), so that the general theorems hold for
every behaviour of the database.  `sql.DB` itself (the open/closed handle,
`QueryRow(...).Scan`, `Rows.Scan`) is modelled concretely; the float and time
formatting routines its conversions call are a parameter (`Strconv`).

Conventions:
* a Go `error` is an `Option Error` (`none` is `nil`);
* a Go pointer result `*Account` is an `Option Account` (`none` is `nil`);
* a Go slice result that may be `nil` is an `Option (List _)`;
* `log.Fatalf` and a nil-pointer dereference end the call with an `Abort`.
-/

namespace BankApi

/-! ## Values and errors -/

/-- Go `float64` values that reach this program come from JSON numbers and from
SQL `float` columns, both finite; they are represented by the rational they
denote.  The program performs no arithmetic on them. -/
abbrev Float64 := Rat

/-- Go `time.Time`, as nanoseconds since the Unix epoch. -/
abbrev Time := Int

/-- A `driver.Value`: what a column of a result row holds and what a statement
argument carries. -/
inductive Value where
  | null
  | int (i : Int)
  | str (s : String)
  | float (f : Float64)
  | bool (b : Bool)
  | time (t : Time)
  deriving DecidableEq, Repr

/-- The result of `sql.Named(name, value)`. -/
structure NamedArg where
  name : String
  value : Value
  deriving DecidableEq, Repr

/-- A row delivered by the driver: one value per selected column. -/
abbrev Row := List Value

/-- Go `error` values that occur in the program. -/
inductive Error where
  /-- An error built by `errors.New` or `fmt.Errorf` with the given text. -/
  | text (msg : String)
  /-- The `database/sql` error "sql: database is closed". -/
  | errDBClosed
  /-- The sentinel `sql.ErrNoRows`. -/
  | errNoRows
  /-- The `Rows.Scan` error "sql: expected n destination arguments in Scan, not m". -/
  | scanArity (columns dests : Nat)
  /-- The `Rows.Scan` error for a column that cannot be converted to its destination. -/
  | scanConvert (column : Nat)
  /-- Any error reported by the driver or the database server. -/
  | driver (msg : String)
  deriving DecidableEq, Repr

/-- Ways a call ends without returning to its caller. -/
inductive Abort where
  /-- The process was ended by `log.Fatalf` with this prefix and error. -/
  | fatal (msg : String) (e : Error)
  /-- The goroutine panicked on a nil pointer dereference. -/
  | nilDereference
  deriving DecidableEq, Repr

deriving instance DecidableEq for Except

/-- The `sql.Result` of a statement: what `RowsAffected()` returns. -/
structure Result where
  rowsAffected : Except Error Int
  deriving DecidableEq

/-! ## The database server and the `sql.DB` handle -/

/-- The database behind the connection: a state and its answers to the
statements sent to it. -/
structure Server (σ : Type) where
  /-- Answer to a statement run with `Exec`. -/
  exec : σ → String → List NamedArg → σ × Except Error Result
  /-- Answer to a statement run with `Query`: the rows `Next` delivers. -/
  query : σ → String → List NamedArg → σ × Except Error (List Row)
  /-- Answer to closing the connections. -/
  close : σ → σ × Option Error

/-- The `sql.DB` handle: whether `Close` has been called, and the server state. -/
structure DB (σ : Type) where
  closed : Bool
  conn : σ

/-- `db.Exec(query, args...)`: fails with `errDBClosed` on a closed handle. -/
def DB.Exec {σ : Type} (srv : Server σ) (db : DB σ) (query : String) (args : List NamedArg) :
    DB σ × Except Error Result :=
  if db.closed then (db, .error .errDBClosed)
  else
    let r := srv.exec db.conn query args
    ({ db with conn := r.1 }, r.2)

/-- `db.Query(query, args...)`: fails with `errDBClosed` on a closed handle. -/
def DB.Query {σ : Type} (srv : Server σ) (db : DB σ) (query : String) (args : List NamedArg) :
    DB σ × Except Error (List Row) :=
  if db.closed then (db, .error .errDBClosed)
  else
    let r := srv.query db.conn query args
    ({ db with conn := r.1 }, r.2)

/-- `db.Close()`: marks the handle closed; a second `Close` returns nil. -/
def DB.Close {σ : Type} (srv : Server σ) (db : DB σ) : DB σ × Option Error :=
  if db.closed then (db, none)
  else
    let r := srv.close db.conn
    ({ closed := true, conn := r.1 }, r.2)

/-! ## `Rows.Scan` conversions

`Rows.Scan` converts a column value to its destination with `convertAssign`.
For an integer or float destination of another kind than the value it parses
the text of the value (`asString(src)`); a `bool` destination goes through
`driver.Bool`; a `string` destination takes the text of a number, a bool or a
time.  `NULL` converts to none of the destinations used here.  Values of kind
`[]byte` are not represented. -/

/-- The library routines whose results are taken as given, not computed. -/
structure Strconv where
  /-- The text `strconv.FormatFloat(f, 'g', -1, 64)`. -/
  FormatFloat : Float64 → String
  /-- The value `strconv.ParseFloat(s, 64)` returns; `none` when it returns an error. -/
  ParseFloat : String → Option Float64
  /-- The text `t.Format(time.RFC3339Nano)`. -/
  FormatTime : Time → String

/-- The number a run of decimal digits denotes: `none` unless every character is a
decimal digit and there is at least one. -/
def digitsToNat : List Char → Option Nat
  | [] => none
  | cs => if cs.all Char.isDigit then some (cs.foldl (fun a c => 10 * a + (c.toNat - 48)) 0)
          else none

/-- `strconv.ParseInt(s, 10, bits)`: an optional sign and decimal digits, within
the range of a signed integer of `bits` bits; `none` when it returns an error. -/
def ParseInt (s : String) (bits : Nat) : Option Int :=
  let v : Option Int :=
    match s.toList with
    | '-' :: cs => (digitsToNat cs).map (fun n => -(n : Int))
    | '+' :: cs => (digitsToNat cs).map (fun n => (n : Int))
    | cs => (digitsToNat cs).map (fun n => (n : Int))
  match v with
  | some i => if -(2 : Int) ^ (bits - 1) ≤ i ∧ i < (2 : Int) ^ (bits - 1) then some i else none
  | none => none

/-- `strconv.ParseUint(s, 10, bits)`: decimal digits without a sign, below
`2 ^ bits`; `none` when it returns an error. -/
def ParseUint (s : String) (bits : Nat) : Option Nat :=
  match digitsToNat s.toList with
  | some n => if n < 2 ^ bits then some n else none
  | none => none

/-- `strconv.ParseBool(s)`; `none` when it returns an error. -/
def ParseBool (s : String) : Option Bool :=
  if s = "1" ∨ s = "t" ∨ s = "T" ∨ s = "TRUE" ∨ s = "true" ∨ s = "True" then some true
  else if s = "0" ∨ s = "f" ∨ s = "F" ∨ s = "FALSE" ∨ s = "false" ∨ s = "False" then some false
  else none

/-- The integer a float prints as: `strconv.FormatFloat(f, 'g', -1, 64)` is a plain
integer numeral exactly when `f` is whole and smaller than `10 ^ 6` in size;
every other value prints with a fraction or an exponent, which `ParseInt` and
`ParseUint` reject. -/
def floatAsInt (f : Float64) : Option Int :=
  if f.den = 1 ∧ f.num.natAbs < 10 ^ 6 then some f.num else none

/-- Conversion into a Go `int` destination (64 bits); a `Value.int` is an `int64`. -/
def asInt : Value → Option Int
  | .int i => some i
  | .str s => ParseInt s 64
  | .float f => floatAsInt f
  | _ => none

/-- Conversion into a Go `int16` destination: out-of-range values are rejected. -/
def asInt16 : Value → Option Int
  | .int i => if -32768 ≤ i ∧ i ≤ 32767 then some i else none
  | .str s => ParseInt s 16
  | .float f =>
    match floatAsInt f with
    | some i => if -32768 ≤ i ∧ i ≤ 32767 then some i else none
    | none => none
  | _ => none

/-- Conversion into a Go `string` destination. -/
def asString (sc : Strconv) : Value → Option String
  | .str s => some s
  | .int i => some (toString i)
  | .float f => some (sc.FormatFloat f)
  | .bool b => some (if b then "true" else "false")
  | .time t => some (sc.FormatTime t)
  | .null => none

/-- Conversion into a Go `uint64` destination: negative values are rejected. -/
def asUint64 : Value → Option Nat
  | .int i => if 0 ≤ i then some i.toNat else none
  | .str s => ParseUint s 64
  | .float f =>
    match floatAsInt f with
    | some i => if 0 ≤ i then some i.toNat else none
    | none => none
  | _ => none

/-- Conversion into a Go `float64` destination: a float is stored as it is, an
integer or a string is parsed from its text. -/
def asFloat64 (sc : Strconv) : Value → Option Float64
  | .float f => some f
  | .int i => sc.ParseFloat (toString i)
  | .str s => sc.ParseFloat s
  | _ => none

/-- Conversion into a Go `bool` destination (`driver.Bool`). -/
def asBool : Value → Option Bool
  | .bool b => some b
  | .int 0 => some false
  | .int 1 => some true
  | .str s => ParseBool s
  | _ => none

/-- Conversion into a Go `time.Time` destination. -/
def asTime : Value → Option Time
  | .time t => some t
  | _ => none

/-- Scan of one column: the conversion, or the `Scan` error naming the column. -/
def scanColumn {α : Type} (column : Nat) (conv : Value → Option α) (v : Value) : Except Error α :=
  match conv v with
  | some a => .ok a
  | none => .error (.scanConvert column)

/-! ## types.go -/

/-- The Go struct `Account`. -/
structure Account where
  Id : Int
  FirstName : String
  LastName : String
  Number : Nat
  Balance : Float64
  GoldMemeber : Bool
  CreatedAt : Time
  deriving DecidableEq, Repr

/-- The Go struct `TranferRequest`. -/
structure TranferRequest where
  ToAccount : Int
  Amount : Float64
  AccountBalanceAfter : Float64
  deriving DecidableEq, Repr

/-- The Go struct `CreateAccountRequest`. -/
structure CreateAccountRequest where
  FirstName : String
  LastName : String
  deriving DecidableEq, Repr

/-- `NewAccount(firstName, lastName)`; `rnd` is the value `rand.Uint64()` returned
and `now` the value of `time.Now().UTC()`.  The other fields keep their zero value. -/
def NewAccount (firstName lastName : String) (rnd : Nat) (now : Time) : Account :=
  { Id := 0
    FirstName := firstName
    LastName := lastName
    Number := rnd % 2 ^ 64
    Balance := 0
    GoldMemeber := false
    CreatedAt := now }

/-! ## accountRepository.go -/

/-- The Go struct `SQLStore`. -/
structure SQLStore (σ : Type) where
  db : DB σ

/-- The statement of `createAccountTable`. -/
def createAccountTable_query : String :=
  "IF NOT EXISTS (SELECT * FROM sys.objects WHERE name = \x27account_info\x27) CREATE TABLE account_info(\n \t\t\t  id int IDENTITY(1,1) PRIMARY KEY,\n              firstName varchar(150),\n              lastName varchar(150), \n              number bigint  , \n\t          balance float,\n              createdAt DateTime)"

/-- `createAccountTable`: runs the statement and returns its error. -/
def createAccountTable {σ : Type} (srv : Server σ) (repo : SQLStore σ) : SQLStore σ × Option Error :=
  let r := DB.Exec srv repo.db createAccountTable_query []
  match r.2 with
  | .error e => (⟨r.1⟩, some e)
  | .ok _ => (⟨r.1⟩, none)

/-- `Init`. -/
def Init {σ : Type} (srv : Server σ) (repo : SQLStore σ) : SQLStore σ × Option Error :=
  createAccountTable srv repo

/-- The statement of `doesUserExist`. -/
def doesUserExist_query : String :=
  "SELECT COUNT(*) FROM [dbo].[user_list]WHERE user_firstname = @firstName AND user_surname = @lastName"

/-- `db.QueryRow(query, args...).Scan(&count)` for `count` of type `int16`:
the query error if any, `sql.ErrNoRows` when there is no row, otherwise the scan
of the first row into the single destination. -/
def DB.QueryRowScanInt16 {σ : Type} (srv : Server σ) (db : DB σ) (query : String)
    (args : List NamedArg) : DB σ × Except Error Int :=
  let r := DB.Query srv db query args
  match r.2 with
  | .error e => (r.1, .error e)
  | .ok [] => (r.1, .error .errNoRows)
  | .ok (row :: _) =>
    match row with
    | [v] => (r.1, scanColumn 0 asInt16 v)
    | _ => (r.1, .error (.scanArity row.length 1))

/-- `doesUserExist(firstName, lastName)`.  When the count was read, the deferred
function closes the store handle before the result is returned; if that
`Close` fails the process is ended by `log.Fatalf`. -/
def doesUserExist {σ : Type} (srv : Server σ) (repo : SQLStore σ) (firstName lastName : String) :
    Except Abort (SQLStore σ × Bool × Option Error) :=
  let r := DB.QueryRowScanInt16 srv repo.db doesUserExist_query
    [⟨"firstName", .str firstName⟩, ⟨"lastname", .str lastName⟩]
  match r.2 with
  | .error e => .ok (⟨r.1⟩, false, some e)
  | .ok count =>
    let result : Bool × Option Error := if count > 0 then (true, none) else (false, none)
    let c := DB.Close srv r.1
    match c.2 with
    | some e => .error (.fatal "Error closing DB: " e)
    | none => .ok (⟨c.1⟩, result)

/-- The statement of `CreateAccount`. -/
def CreateAccount_query : String :=
  "INSERT INTO account_info VALUES (\n              @firstName,\n              @lastName,\n              @number,\n              @balance,\n              @createdAt)"

/-- `CreateAccount(account)`. -/
def CreateAccount {σ : Type} (srv : Server σ) (repo : SQLStore σ) (account : Account) :
    Except Abort (SQLStore σ × Option Error) :=
  match doesUserExist srv repo account.FirstName account.LastName with
  | .error a => .error a
  | .ok (repo1, userExists, err) =>
    match err with
    | some e => .ok (repo1, some e)
    | none =>
      if userExists then .ok (repo1, some (.text "Account already exists"))
      else
        let r := DB.Exec srv repo1.db CreateAccount_query
          [⟨"firstName", .str account.FirstName⟩,
           ⟨"lastName", .str account.LastName⟩,
           ⟨"number", .int account.Number⟩,
           ⟨"balance", .float account.Balance⟩,
           ⟨"createdAt", .time account.CreatedAt⟩]
        match r.2 with
        | .error e => .ok (⟨r.1⟩, some e)
        | .ok result =>
          match result.rowsAffected with
          | .error e => .ok (⟨r.1⟩, some e)
          | .ok rowsAff =>
            if rowsAff ≠ 1 then
              .ok (⟨r.1⟩, some (.text "Something went wrong, please contact IT support"))
            else .ok (⟨r.1⟩, none)

/-- `UpdateAccount`: does nothing and returns nil. -/
def UpdateAccount {σ : Type} (_srv : Server σ) (repo : SQLStore σ) (_account : Account) :
    SQLStore σ × Option Error :=
  (repo, none)

/-- The statement of `DeleteAccount`. -/
def DeleteAccount_query : String := "DELETE FROM account_info WHERE id = @id"

/-- `fmt.Sprintf("Account %s has been deleted", id)` for an `int`: the verb `%s`
does not apply to integers, so `fmt` prints `%!s(int=<id>)`. -/
def DeleteAccount_message (id : Int) : String :=
  "Account %!s(int=" ++ toString id ++ ") has been deleted"

/-- `DeleteAccount(id)`. -/
def DeleteAccount {σ : Type} (srv : Server σ) (repo : SQLStore σ) (id : Int) :
    SQLStore σ × String × Option Error :=
  let r := DB.Exec srv repo.db DeleteAccount_query [⟨"id", .int id⟩]
  match r.2 with
  | .error e => (⟨r.1⟩, "", some e)
  | .ok result =>
    match result.rowsAffected with
    | .error e => (⟨r.1⟩, "", some e)
    | .ok rowsAffected =>
      if rowsAffected ≠ 1 then
        (⟨r.1⟩, "", some (.text
          "Something went wrong when deleting account, Please try again or contact support"))
      else (⟨r.1⟩, DeleteAccount_message id, none)

/-- The placeholders of `DeleteMutipleAccounts`: `idsToQuery := make([]string, n)`
followed by the loop `for i := range ids` with body
`idsToQuery[i] = fmt.Sprintf("@p%d", i+1)`. -/
def DeleteMutipleAccounts_idsToQuery (n : Nat) : List String :=
  (List.range n).foldl (fun idsToQuery i => idsToQuery.set i ("@p" ++ toString (i + 1)))
    (List.replicate n "")

/-- The statement of `DeleteMutipleAccounts`: the placeholders joined with ", "
and substituted for `%s`. -/
def DeleteMutipleAccounts_query (n : Nat) : String :=
  "DELETE FROM account_info WHERE id In (" ++
    ", ".intercalate (DeleteMutipleAccounts_idsToQuery n) ++ ")"

/-- The zero value of an `interface` slot of `args`: an untyped nil. -/
def nilArg : NamedArg := ⟨"", .null⟩

/-- The loop `for i, id := range ids` with body
`args[i] = sql.Named(fmt.Sprintf("p%d", i+1), *id)`, from index `i` on;
dereferencing a nil element panics. -/
def DeleteMutipleAccounts_argsLoop : List (Option Int) → Nat → List NamedArg →
    Except Abort (List NamedArg)
  | [], _, args => .ok args
  | none :: _, _, _ => .error .nilDereference
  | some id :: rest, i, args =>
    DeleteMutipleAccounts_argsLoop rest (i + 1) (args.set i ⟨"p" ++ toString (i + 1), .int id⟩)

/-- The arguments of `DeleteMutipleAccounts`: `args := make([]interface, len(ids))`
filled by the loop. -/
def DeleteMutipleAccounts_args (ids : List (Option Int)) : Except Abort (List NamedArg) :=
  DeleteMutipleAccounts_argsLoop ids 0 (List.replicate ids.length nilArg)

/-- `DeleteMutipleAccounts(ids)`; a nil element of `ids` is `none`. -/
def DeleteMutipleAccounts {σ : Type} (srv : Server σ) (repo : SQLStore σ)
    (ids : List (Option Int)) : Except Abort (SQLStore σ × Option Error) :=
  let query := DeleteMutipleAccounts_query ids.length
  match DeleteMutipleAccounts_args ids with
  | .error a => .error a
  | .ok args =>
    let r := DB.Exec srv repo.db query args
    match r.2 with
    | .error e => .ok (⟨r.1⟩, some e)
    | .ok result =>
      match result.rowsAffected with
      | .error e => .ok (⟨r.1⟩, some e)
      | .ok res =>
        if res > 0 then .ok (⟨r.1⟩, some (.text "No Accounts where deleted"))
        else .ok (⟨r.1⟩, none)

/-- `scanIntoAccount(rows)` on the current row: `rows.Scan` into the seven fields
`Id, FirstName, LastName, Number, Balance, GoldMemeber, CreatedAt`.  The Go
function returns either `(nil, err)` with a non-nil error or `(account, nil)`. -/
def scanIntoAccount (sc : Strconv) (row : Row) : Except Error Account :=
  match row with
  | [c0, c1, c2, c3, c4, c5, c6] => do
    let id ← scanColumn 0 asInt c0
    let firstName ← scanColumn 1 (asString sc) c1
    let lastName ← scanColumn 2 (asString sc) c2
    let number ← scanColumn 3 asUint64 c3
    let balance ← scanColumn 4 (asFloat64 sc) c4
    let goldMemeber ← scanColumn 5 asBool c5
    let createdAt ← scanColumn 6 asTime c6
    pure { Id := id, FirstName := firstName, LastName := lastName, Number := number,
           Balance := balance, GoldMemeber := goldMemeber, CreatedAt := createdAt }
  | _ => .error (.scanArity row.length 7)

/-- The statement of `GetAccountById`. -/
def GetAccountById_query : String := "SELECT * FROM account_info WHERE id = @id"

/-- `GetAccountById(id)`.  In the branch where the scan of the first row fails the
Go code returns `nil, err`, and `err` is the query error, which is nil there. -/
def GetAccountById {σ : Type} (sc : Strconv) (srv : Server σ) (repo : SQLStore σ) (id : Int) :
    SQLStore σ × Option Account × Option Error :=
  let r := DB.Query srv repo.db GetAccountById_query [⟨"id", .int id⟩]
  match r.2 with
  | .error e => (⟨r.1⟩, none, some e)
  | .ok rows =>
    let err : Option Error := none
    match rows with
    | row :: _ =>
      match scanIntoAccount sc row with
      | .error _scanerr => (⟨r.1⟩, none, err)
      | .ok account => (⟨r.1⟩, some account, none)
    | [] => (⟨r.1⟩, none, some (.text ("Account not found with id " ++ toString id)))

/-- The statement of `GetAccountsWithGoldMemberShip`. -/
def GetAccountsWithGoldMemberShip_query : String :=
  "SELECT * FROM account_info WHERE gold_member = true"

/-- The loop `for rows.Next()` of `GetAccountsWithGoldMemberShip`: `accounts` is
the slice built so far (`none` is the nil slice). -/
def GetAccountsWithGoldMemberShip_loop (sc : Strconv) : List Row → Option (List Account) →
    Option (List Account) × Option Error
  | [], accounts => (accounts, none)
  | row :: rest, accounts =>
    match scanIntoAccount sc row with
    | .error e => (none, some e)
    | .ok account =>
      GetAccountsWithGoldMemberShip_loop sc rest (some (accounts.getD [] ++ [account]))

/-- `GetAccountsWithGoldMemberShip()`; `var accounts []*Account` starts as the nil slice. -/
def GetAccountsWithGoldMemberShip {σ : Type} (sc : Strconv) (srv : Server σ)
    (repo : SQLStore σ) :
    SQLStore σ × Option (List Account) × Option Error :=
  let r := DB.Query srv repo.db GetAccountsWithGoldMemberShip_query []
  match r.2 with
  | .error e => (⟨r.1⟩, none, some e)
  | .ok rows => (⟨r.1⟩, GetAccountsWithGoldMemberShip_loop sc rows none)

/-! ## api.go -/

/-- Values the handlers encode as JSON. -/
inductive Payload where
  | accounts (l : List Account)
  | account (a : Option Account)
  | text (s : String)
  /-- The text `fmt.Sprintf("Accounts %s have been deleted", ids)`. -/
  | deleted (ids : List (Option Int))
  | transfer (t : TranferRequest)
  | createRequest (c : CreateAccountRequest)
  /-- The struct `ApiError` holding `err.Error()`. -/
  | apiError (e : Error)
  deriving DecidableEq, Repr

/-- The `http.ResponseWriter`: the (status, body) pairs written so far, and the
error `Encode` returns when it writes to the connection. -/
structure ResponseWriter where
  written : List (Nat × Payload)
  encodeErr : Option Error
  deriving DecidableEq

/-- The `http.Request`, as far as the handlers read it: the path variable `id`,
and what decoding the body gives (`ReadAll` and `json.Unmarshal` into `[]*int`,
`Decode` into a `TranferRequest`). -/
structure Request where
  Method : String
  idVar : String
  bodyIds : Except Error (List (Option Int))
  bodyTransfer : Except Error TranferRequest

/-- The Go struct `APIServer`; `accountRepo` is the `SQLStore` passed by `main`. -/
structure APIServer (σ : Type) where
  listenAddr : String
  accountRepo : SQLStore σ

/-- `WriteJson(writer, status, value)`. -/
def WriteJson (writer : ResponseWriter) (status : Nat) (value : Payload) :
    ResponseWriter × Option Error :=
  ({ writer with written := writer.written ++ [(status, value)] }, writer.encodeErr)

/-- `noResponseContentCheck(writer, T, err)`; `T` is nil or an id. -/
def noResponseContentCheck (writer : ResponseWriter) (T : Option Int) (err : Option Error) :
    ResponseWriter × Bool × Option Error :=
  if err = some .errNoRows then
    let message : String :=
      match T with
      | none => "Connection Succesful but Content Cannot be fount"
      | some id => "Connection Succesful: %!s(int=" ++ toString id ++ ") cannot be found"
    let w := WriteJson writer 204 (.text message)
    (w.1, true, w.2)
  else (writer, false, none)

/-- `handleGetAccountsWithGoldMemberShip`. -/
def handleGetAccountsWithGoldMemberShip {σ : Type} (sc : Strconv) (srv : Server σ)
    (server : APIServer σ) (writer : ResponseWriter) (_request : Request) :
    APIServer σ × ResponseWriter × Option Error :=
  let g := GetAccountsWithGoldMemberShip sc srv server.accountRepo
  let server1 : APIServer σ := { server with accountRepo := g.1 }
  let accounts := g.2.1
  let err := g.2.2
  let c := noResponseContentCheck writer none err
  match c.2.2 with
  | some _ => (server1, c.1, err)
  | none =>
    if c.2.1 then (server1, c.1, some (.text "Content not found"))
    else
      match err with
      | some e => (server1, c.1, some e)
      | none =>
        match accounts with
        | none => (server1, c.1, some (.text "Accounts with gold membership returned nil"))
        | some l =>
          let w := WriteJson c.1 200 (.accounts l)
          (server1, w.1, w.2)

/-- `handleTransfer`: decodes the body and writes it back. -/
def handleTransfer {σ : Type} (_srv : Server σ) (server : APIServer σ)
    (writer : ResponseWriter) (request : Request) :
    APIServer σ × ResponseWriter × Option Error :=
  match request.bodyTransfer with
  | .error err => (server, writer, some err)
  | .ok transferReq =>
    let w := WriteJson writer 200 (.transfer transferReq)
    (server, w.1, w.2)

/-- `handleMutipleAccountRemoval`. -/
def handleMutipleAccountRemoval {σ : Type} (srv : Server σ) (server : APIServer σ)
    (writer : ResponseWriter) (request : Request) :
    Except Abort (APIServer σ × ResponseWriter × Option Error) :=
  match request.bodyIds with
  | .error err => .ok (server, writer, some err)
  | .ok ids =>
    match DeleteMutipleAccounts srv server.accountRepo ids with
    | .error a => .error a
    | .ok (repo, some err) => .ok ({ server with accountRepo := repo }, writer, some err)
    | .ok (repo, none) =>
      let w := WriteJson writer 200 (.deleted ids)
      .ok ({ server with accountRepo := repo }, w.1, w.2)

/-- `strconv.Atoi(s)`: `ParseInt(s, 10, 0)` for the 64-bit `int`. -/
def Atoi (s : String) : Option Int := ParseInt s 64

/-- `getId(request)`. -/
def getId (request : Request) : Int × Option Error :=
  match Atoi request.idVar with
  | some id => (id, none)
  | none => (0, some (.text ("Error invalid id given " ++ request.idVar)))

/-- `handleGetAccountById`. -/
def handleGetAccountById {σ : Type} (sc : Strconv) (srv : Server σ) (server : APIServer σ)
    (writer : ResponseWriter) (request : Request) :
    APIServer σ × ResponseWriter × Option Error :=
  match getId request with
  | (_, some err) => (server, writer, some err)
  | (id, none) =>
    let g := GetAccountById sc srv server.accountRepo id
    let server1 : APIServer σ := { server with accountRepo := g.1 }
    let account := g.2.1
    let err := g.2.2
    match err with
    | some e =>
      let c := noResponseContentCheck writer (some id) err
      match c.2.2 with
      | some _ => (server1, c.1, err)
      | none =>
        if c.2.1 then (server1, c.1, some (.text "Content not found"))
        else (server1, c.1, some e)
    | none =>
      let w := WriteJson writer 200 (.account account)
      (server1, w.1, w.2)

/-- `convertToHttpHandleFunc(f)` applied to the outcome of `f`: an error is
written as a 400 response holding an `ApiError`. -/
def convertToHttpHandleFunc {σ : Type} (out : APIServer σ × ResponseWriter × Option Error) :
    APIServer σ × ResponseWriter :=
  match out.2.2 with
  | some err => (out.1, (WriteJson out.2.1 400 (.apiError err)).1)
  | none => (out.1, out.2.1)

/-! ## Databases used to run the code on concrete inputs -/

/-- A server that answers every `Exec` and every `Query` with a fixed reply and
records the statements it receives. -/
structure Scripted where
  execReply : Except Error Result
  queryReply : Except Error (List Row)
  log : List (String × List NamedArg)
  deriving DecidableEq

/-- The server of `Scripted` states. -/
def scripted : Server Scripted where
  exec s q args := ({ s with log := s.log ++ [(q, args)] }, s.execReply)
  query s q args := ({ s with log := s.log ++ [(q, args)] }, s.queryReply)
  close s := (s, none)

/-- The text of a statement from the first occurrence of `pat` on (empty if absent). -/
def dropTo (pat : List Char) : List Char → List Char
  | [] => []
  | c :: cs => if pat.isPrefixOf (c :: cs) then c :: cs else dropTo pat cs

/-- The pieces of a parenthesised, comma-separated list: `cur` is the piece being
read (reversed), `depth` the nesting inside the list; reading stops at the
parenthesis that closes the list. -/
def splitList : List Char → Nat → List Char → List (List Char)
  | [], _, cur => [cur.reverse]
  | c :: cs, depth, cur =>
    if c = ',' ∧ depth = 0 then cur.reverse :: splitList cs depth []
    else if c = '(' then splitList cs (depth + 1) (c :: cur)
    else if c = ')' then
      match depth with
      | 0 => [cur.reverse]
      | d + 1 => splitList cs d (c :: cur)
    else splitList cs depth (c :: cur)

/-- The first word of a piece of text. -/
def firstWord (cs : List Char) : String :=
  String.mk ((cs.dropWhile Char.isWhitespace).takeWhile (fun c => !c.isWhitespace))

/-- The column names a `CREATE TABLE name(...)` statement declares, in order. -/
def ddlColumns (stmt : String) : List String :=
  let fromCreate := dropTo "CREATE TABLE".toList stmt.toList
  let body := (fromCreate.dropWhile (fun c => c ≠ '(')).drop 1
  (splitList body 0 []).map firstWord

/-- The columns of the table `createAccountTable` creates. -/
def createAccountTable_columns : List String := ddlColumns createAccountTable_query

/-- The column a `... WHERE column = ...` statement filters on. -/
def whereColumn (stmt : String) : String :=
  firstWord ((dropTo "WHERE".toList stmt.toList).drop 5)

/-- The fields `scanIntoAccount` passes to `rows.Scan`, in order. -/
def scanIntoAccount_fields : List String :=
  ["Id", "FirstName", "LastName", "Number", "Balance", "GoldMemeber", "CreatedAt"]

/-- A table: its column names and its rows. -/
structure Table where
  columns : List String
  rows : List Row
  deriving DecidableEq

/-- An in-memory database: the table `account_info` (absent until created), the
table `[dbo].[user_list]` of (user_firstname, user_surname) rows (absent unless
created outside this program), and the next IDENTITY value of `account_info`. -/
structure MemDB where
  account_info : Option Table
  user_list : Option (List (String × String))
  identity : Int
  deriving DecidableEq

/-- A parameter name without regard to case. -/
def lowerName (s : String) : String := String.mk (s.toList.map Char.toLower)

/-- The value bound to parameter `@name` (names compare without regard to case). -/
def lookupArg (args : List NamedArg) (name : String) : Option Value :=
  (args.find? (fun a => lowerName a.name == lowerName name)).map (fun a => a.value)

/-- The value of column `name` in a row of a table. -/
def Table.value (t : Table) (name : String) (row : Row) : Option Value :=
  match t.columns.indexOf? name with
  | some i => row.get? i
  | none => none

/-- How the in-memory database runs the statements sent with `Exec`. -/
def MemDB.exec (s : MemDB) (q : String) (args : List NamedArg) : MemDB × Except Error Result :=
  if q = createAccountTable_query then
    match s.account_info with
    | some _ => (s, .ok ⟨.ok 0⟩)
    | none => ({ s with account_info := some ⟨createAccountTable_columns, []⟩ }, .ok ⟨.ok 0⟩)
  else
    match s.account_info with
    | none => (s, .error (.driver "Invalid object name account_info"))
    | some t =>
      if q = CreateAccount_query then
        match (["firstName", "lastName", "number", "balance", "createdAt"].mapM (lookupArg args)) with
        | none => (s, .error (.driver "Must declare the scalar variable"))
        | some vals =>
          if t.columns.length ≠ vals.length + 1 then
            (s, .error (.driver "Column name or number of supplied values does not match table definition"))
          else
            ({ s with account_info := some { t with rows := t.rows ++ [.int s.identity :: vals] }
                      identity := s.identity + 1 }, .ok ⟨.ok 1⟩)
      else if q = DeleteAccount_query then
        match lookupArg args "id" with
        | none => (s, .error (.driver "Must declare the scalar variable"))
        | some v =>
          let keep := t.rows.filter (fun r => t.value "id" r ≠ some v)
          ({ s with account_info := some { t with rows := keep } },
            .ok ⟨.ok ((t.rows.length - keep.length : Nat) : Int)⟩)
      else if args ≠ [] ∧ q = DeleteMutipleAccounts_query args.length then
        let vals := args.map (fun a => a.value)
        let keep := t.rows.filter (fun r => ∀ v ∈ vals, t.value "id" r ≠ some v)
        ({ s with account_info := some { t with rows := keep } },
          .ok ⟨.ok ((t.rows.length - keep.length : Nat) : Int)⟩)
      else (s, .error (.driver "Incorrect syntax"))

/-- How the in-memory database runs the statements sent with `Query`. -/
def MemDB.query (s : MemDB) (q : String) (args : List NamedArg) :
    MemDB × Except Error (List Row) :=
  if q = doesUserExist_query then
    match s.user_list with
    | none => (s, .error (.driver "Invalid object name dbo.user_list"))
    | some users =>
      match lookupArg args "firstName", lookupArg args "lastName" with
      | some f, some l =>
        (s, .ok [[.int ((users.filter (fun u => Value.str u.1 = f ∧ Value.str u.2 = l)).length : Nat)]])
      | _, _ => (s, .error (.driver "Must declare the scalar variable"))
  else
    match s.account_info with
    | none => (s, .error (.driver "Invalid object name account_info"))
    | some t =>
      if q = GetAccountById_query then
        match lookupArg args "id" with
        | none => (s, .error (.driver "Must declare the scalar variable"))
        | some v => (s, .ok (t.rows.filter (fun r => t.value "id" r = some v)))
      else if q = GetAccountsWithGoldMemberShip_query then
        if whereColumn q ∈ t.columns then
          (s, .ok (t.rows.filter (fun r => t.value (whereColumn q) r = some (.bool true))))
        else (s, .error (.driver "Invalid column name"))
      else (s, .error (.driver "Incorrect syntax"))

/-- The in-memory database as a server. -/
def memServer : Server MemDB where
  exec := MemDB.exec
  query := MemDB.query
  close s := (s, none)

deriving instance DecidableEq for DB
deriving instance DecidableEq for SQLStore
deriving instance DecidableEq for APIServer

/-- The balance column of the `account_info` row with the given id, if any. -/
def MemDB.balance (s : MemDB) (id : Int) : Option Value :=
  match s.account_info with
  | none => none
  | some t =>
    match t.rows.find? (fun r => t.value "id" r = some (.int id)) with
    | none => none
    | some r => t.value "balance" r

/-- `CreateAccount` called twice in sequence, returning the two errors. -/
def CreateAccount_twice {σ : Type} (srv : Server σ) (repo : SQLStore σ) (a b : Account) :
    Except Abort (SQLStore σ × Option Error × Option Error) :=
  match CreateAccount srv repo a with
  | .error x => .error x
  | .ok (repo1, e1) =>
    match CreateAccount srv repo1 b with
    | .error x => .error x
    | .ok (repo2, e2) => .ok (repo2, e1, e2)

/-! ## Concrete inputs -/

/-- A database in which `[dbo].[user_list]` exists and is empty and `account_info`
has not been created yet. -/
def freshDB : MemDB := ⟨none, some [], 1⟩

/-- The store `main` builds: an open handle on `freshDB`, after `Init`. -/
def initStore : SQLStore MemDB := (Init memServer ⟨⟨false, freshDB⟩⟩).1

/-- The account `handleCreateAccount` builds for Alex Rios. -/
def alexRios : Account := NewAccount "Alex" "Rios" 42 1700000000

/-- A database whose `account_info` (as created by `createAccountTable`) holds two
rows: account 1 of Alex Rios with balance 0 and account 2 of Bo Chen with balance 10. -/
def twoAccountsDB : MemDB :=
  ⟨some ⟨createAccountTable_columns,
      [[.int 1, .str "Alex", .str "Rios", .int 42, .float 0, .time 1700000000],
       [.int 2, .str "Bo", .str "Chen", .int 43, .float 10, .time 1700000001]]⟩,
    some [], 3⟩

/-- An open store on `twoAccountsDB`. -/
def twoAccountsStore : SQLStore MemDB := ⟨⟨false, twoAccountsDB⟩⟩

/-- An open store on a scripted server with the given replies. -/
def scriptedStore (execReply : Except Error Result) (queryReply : Except Error (List Row)) :
    SQLStore Scripted :=
  ⟨⟨false, ⟨execReply, queryReply, []⟩⟩⟩

/-- A request without a body, as a GET sends it: decoding the body gives `EOF`. -/
def getRequest (idVar : String) : Request :=
  ⟨"GET", idVar, .error (.text "EOF"), .error (.text "EOF")⟩

/-- A `Strconv` for runs on concrete inputs: it prints whole floats below `10 ^ 6` as
their integer numeral and parses integer numerals of up to 32 bits.  The runs in
this file reach no conversion that consults it. -/
def sampleStrconv : Strconv where
  FormatFloat f := ((floatAsInt f).map (fun i => toString i)).getD ""
  ParseFloat s := (ParseInt s 32).map (fun i => (i : Rat))
  FormatTime _ := ""

/-- A database whose `account_info` was created outside the program with a
`gold_member` column and holds two accounts, neither of them a gold member. -/
def goldColumnDB : MemDB :=
  ⟨some ⟨["id", "firstName", "lastName", "number", "balance", "gold_member", "createdAt"],
      [[.int 1, .str "Alex", .str "Rios", .int 42, .float 0, .bool false, .time 1700000000],
       [.int 2, .str "Bo", .str "Chen", .int 43, .float 10, .bool false, .time 1700000001]]⟩,
    some [], 3⟩

/-- The API server `main` builds on the initialised store. -/
def initServer : APIServer MemDB := ⟨":3000", initStore⟩

/-- An open store on `goldColumnDB`. -/
def goldColumnStore : SQLStore MemDB := ⟨⟨false, goldColumnDB⟩⟩

/-- A transfer of 50 to account 2. -/
def transferFifty : TranferRequest := ⟨2, 50, 0⟩

/-- The error `DeleteAccount` returns when the row count is not one. -/
def DeleteAccount_error : Error :=
  .text "Something went wrong when deleting account, Please try again or contact support"

/-! ## The statement and arguments of `DeleteMutipleAccounts`, as described -/

/-- The placeholders the claim describes: `@p1, ..., @pn`. -/
def spec_placeholders (n : Nat) : List String :=
  (List.range' 1 n).map (fun k => "@p" ++ toString k)

/-- The statement the claim describes for `n` ids. -/
def spec_deleteStatement (n : Nat) : String :=
  "DELETE FROM account_info WHERE id In (" ++ ", ".intercalate (spec_placeholders n) ++ ")"

/-- The arguments the claim describes: the k-th (from 1) is named `pk` and carries
the k-th id. -/
def spec_deleteArgs (vals : List Int) : List NamedArg :=
  (List.zip (List.range' 1 vals.length) vals).map (fun kv => ⟨"p" ++ toString kv.1, .int kv.2⟩)

/-- The number a list of decimal digit characters denotes. -/
def digitsValue (cs : List Char) : Nat :=
  cs.foldl (fun a c => 10 * a + (c.toNat - 48)) 0


/-! ## Properties of the handle -/

theorem DB.Close_closed {σ : Type} (srv : Server σ) (db : DB σ) :
    (DB.Close srv db).1.closed = true := by
  unfold DB.Close
  by_cases h : db.closed = true
  · simp [h]
  · simp [h]

theorem DB.Exec_closed {σ : Type} (srv : Server σ) (db : DB σ) (q : String)
    (args : List NamedArg) (h : db.closed = true) :
    DB.Exec srv db q args = (db, .error .errDBClosed) := by
  simp [DB.Exec, h]

theorem DB.Query_closed {σ : Type} (srv : Server σ) (db : DB σ) (q : String)
    (args : List NamedArg) (h : db.closed = true) :
    DB.Query srv db q args = (db, .error .errDBClosed) := by
  simp [DB.Query, h]

theorem DB.Exec_open {σ : Type} (srv : Server σ) (db : DB σ) (q : String)
    (args : List NamedArg) (h : db.closed = false) :
    DB.Exec srv db q args = (⟨false, (srv.exec db.conn q args).1⟩, (srv.exec db.conn q args).2) := by
  simp [DB.Exec, h]

theorem DB.Query_open {σ : Type} (srv : Server σ) (db : DB σ) (q : String)
    (args : List NamedArg) (h : db.closed = false) :
    DB.Query srv db q args =
      (⟨false, (srv.query db.conn q args).1⟩, (srv.query db.conn q args).2) := by
  simp [DB.Query, h]

/-- After `doesUserExist` returns without error the handle is closed. -/
theorem doesUserExist_closes {σ : Type} (srv : Server σ) (repo repo1 : SQLStore σ)
    (f l : String) (b : Bool)
    (h : doesUserExist srv repo f l = .ok (repo1, b, none)) : repo1.db.closed = true := by
  unfold doesUserExist at h
  dsimp only at h
  split at h
  · simp at h
  · split at h
    · simp at h
    · simp only [Except.ok.injEq, Prod.mk.injEq] at h
      rw [← h.1]
      exact DB.Close_closed _ _

/-- Whatever the database answers, `CreateAccount` does not return a nil error. -/
theorem CreateAccount_error {σ : Type} (srv : Server σ) (repo repo1 : SQLStore σ)
    (a : Account) (e : Option Error) (h : CreateAccount srv repo a = .ok (repo1, e)) :
    e ≠ none := by
  unfold CreateAccount at h
  dsimp only at h
  split at h
  · simp at h
  · rename_i r1 ue err hd
    cases err with
    | some e0 =>
      simp only [Except.ok.injEq, Prod.mk.injEq] at h
      rw [← h.2]; simp
    | none =>
      have hcl := doesUserExist_closes srv repo r1 _ _ ue hd
      simp only at h
      split at h
      · simp only [Except.ok.injEq, Prod.mk.injEq] at h
        rw [← h.2]; simp
      · rw [DB.Exec_closed srv r1.db _ _ hcl] at h
        simp only [Except.ok.injEq, Prod.mk.injEq] at h
        rw [← h.2]; simp

/-! ## C1: creating the same account twice -/

/-- C1 (the code departs from the claim): whatever the database holds and answers,
when `CreateAccount` is called twice in sequence and both calls return, neither
call returns a nil error; so the two calls never yield one success and one
duplicate-account error. -/
theorem CreateAccount_twice_no_success {σ : Type} (srv : Server σ) (repo repo2 : SQLStore σ)
    (a b : Account) (e1 e2 : Option Error)
    (h : CreateAccount_twice srv repo a b = .ok (repo2, e1, e2)) :
    e1 ≠ none ∧ e2 ≠ none := by
  unfold CreateAccount_twice at h
  split at h
  · simp at h
  · rename_i r1 x1 h1
    split at h
    · simp at h
    · rename_i r2 x2 h2
      simp only [Except.ok.injEq, Prod.mk.injEq] at h
      obtain ⟨-, rfl, rfl⟩ := h
      exact ⟨CreateAccount_error srv repo r1 a _ h1, CreateAccount_error srv r1 r2 b _ h2⟩

/-- C1 at a concrete input: on the initialised store, where no account is named
Alex Rios, both calls fail with "sql: database is closed". -/
theorem CreateAccount_twice_no_success_witness :
    CreateAccount_twice memServer initStore alexRios alexRios =
        .ok (⟨⟨true, initStore.db.conn⟩⟩, some .errDBClosed, some .errDBClosed) ∧
      (some Error.errDBClosed ≠ none ∧ some Error.errDBClosed ≠ none) :=
  ⟨by decide!, CreateAccount_twice_no_success memServer initStore _ alexRios alexRios _ _
    (show CreateAccount_twice memServer initStore alexRios alexRios =
        .ok (⟨⟨true, initStore.db.conn⟩⟩, some .errDBClosed, some .errDBClosed) by decide!)⟩

/-! ## C9: the handle after `CreateAccount` -/

/-- C9 (the code departs from the claim): on an open store, when the count query of
`doesUserExist` is answered with a count `c`, every return of `CreateAccount`
leaves the handle closed; with no matching row (`c ≤ 0`) the insert of the
same call fails with "sql: database is closed", and with a matching row the
call is rejected as a duplicate, the handle being closed all the same. -/
theorem CreateAccount_closes_handle {σ : Type} (srv : Server σ) (repo repo1 : SQLStore σ)
    (a : Account) (e : Option Error) (c : Int) (rest : List Row) (s1 : σ)
    (hopen : repo.db.closed = false)
    (hq : srv.query repo.db.conn doesUserExist_query
      [⟨"firstName", .str a.FirstName⟩, ⟨"lastname", .str a.LastName⟩] = (s1, .ok ([.int c] :: rest)))
    (hc : -32768 ≤ c ∧ c ≤ 32767)
    (h : CreateAccount srv repo a = .ok (repo1, e)) :
    repo1.db.closed = true ∧ (c ≤ 0 → e = some .errDBClosed) ∧
      (0 < c → e = some (.text "Account already exists")) := by
  have hs : DB.QueryRowScanInt16 srv repo.db doesUserExist_query
      [⟨"firstName", .str a.FirstName⟩, ⟨"lastname", .str a.LastName⟩] = (⟨false, s1⟩, .ok c) := by
    simp [DB.QueryRowScanInt16, DB.Query_open srv repo.db _ _ hopen, hq, scanColumn, asInt16, hc]
  unfold CreateAccount doesUserExist at h
  simp only [hs] at h
  have hcl := DB.Close_closed srv ⟨false, s1⟩
  generalize DB.Close srv ⟨false, s1⟩ = cl at h hcl
  obtain ⟨db2, ce⟩ := cl
  cases ce with
  | some x => simp at h
  | none =>
    simp only at hcl
    by_cases hpos : c > 0
    · simp [hpos] at h
      obtain ⟨rfl, rfl⟩ := h
      refine ⟨hcl, fun hle => absurd hpos (by omega), fun _ => rfl⟩
    · simp [hpos, DB.Exec_closed srv db2 _ _ hcl] at h
      obtain ⟨rfl, rfl⟩ := h
      exact ⟨hcl, fun _ => rfl, fun hlt => absurd hlt hpos⟩

/-- C9 at a concrete input: on the initialised open store `CreateAccount` for Alex
Rios returns "sql: database is closed" and leaves the handle closed. -/
theorem CreateAccount_closes_handle_witness :
    initStore.db.closed = false ∧
      CreateAccount memServer initStore alexRios =
        .ok (⟨⟨true, initStore.db.conn⟩⟩, some .errDBClosed) ∧
      ((⟨⟨true, initStore.db.conn⟩⟩ : SQLStore MemDB).db.closed = true ∧
        ((0 : Int) ≤ 0 → some Error.errDBClosed = some .errDBClosed) ∧
        ((0 : Int) < 0 → some Error.errDBClosed = some (.text "Account already exists"))) :=
  ⟨by decide!, by decide!,
    CreateAccount_closes_handle memServer initStore _ alexRios _ 0 [] initStore.db.conn
      (by decide!) (by decide!) (by decide)
      (show CreateAccount memServer initStore alexRios =
        .ok (⟨⟨true, initStore.db.conn⟩⟩, some .errDBClosed) by decide!)⟩

/-! ## C3: `DeleteAccount` -/

/-- C3 (as amended): for every id and every outcome of the delete statement,
`DeleteAccount` returns a nil error exactly when the statement ran without error
and reported exactly one affected row, and it then returns the deletion
message; for every other reported row count, zero or more than one alike, it
returns one and the same error. -/
theorem DeleteAccount_outcome {σ : Type} (srv : Server σ) (repo : SQLStore σ) (id : Int) :
    ((DeleteAccount srv repo id).2.2 = none ↔
      ∃ res, (DB.Exec srv repo.db DeleteAccount_query [⟨"id", .int id⟩]).2 = .ok res ∧
        res.rowsAffected = .ok 1) ∧
    ((DeleteAccount srv repo id).2.2 = none →
      (DeleteAccount srv repo id).2.1 = DeleteAccount_message id) ∧
    (∀ n : Int, n ≠ 1 →
      (DB.Exec srv repo.db DeleteAccount_query [⟨"id", .int id⟩]).2 = .ok ⟨.ok n⟩ →
      (DeleteAccount srv repo id).2 = ("", some DeleteAccount_error)) := by
  unfold DeleteAccount
  generalize DB.Exec srv repo.db DeleteAccount_query [⟨"id", .int id⟩] = r
  obtain ⟨db1, res⟩ := r
  cases res with
  | error e => simp
  | ok result =>
    obtain ⟨ra⟩ := result
    cases ra with
    | error e => simp
    | ok n =>
      by_cases hn : n = 1
      · simp [hn]
        intro m hm hm1
        exact hm hm1.symm
      · simp [hn, DeleteAccount_error]

/-- C3, the claim as stated fails: when the delete statement reports zero rows and
when it reports two rows `DeleteAccount` returns the same error, so the
not-found case cannot be told from the write-integrity case. -/
theorem DeleteAccount_zero_rows_same_error_as_two :
    (DeleteAccount scripted (scriptedStore (.ok ⟨.ok 0⟩) (.ok [])) 5).2 =
        ("", some DeleteAccount_error) ∧
      (DeleteAccount scripted (scriptedStore (.ok ⟨.ok 2⟩) (.ok [])) 5).2 =
        ("", some DeleteAccount_error) := by
  decide!

/-! ## C2: `DeleteMutipleAccounts` -/

/-- C2 (the code departs from the claim): whenever `DeleteMutipleAccounts` returns,
its arguments were built, and it returns a nil error exactly when the delete
statement ran and reported no affected row; when the statement reports that
rows were deleted it returns the error "No Accounts where deleted". -/
theorem DeleteMutipleAccounts_nil_iff_no_row {σ : Type} (srv : Server σ)
    (repo repo1 : SQLStore σ) (ids : List (Option Int)) (e : Option Error)
    (h : DeleteMutipleAccounts srv repo ids = .ok (repo1, e)) :
    ∃ args, DeleteMutipleAccounts_args ids = .ok args ∧
      (e = none ↔ ∃ res n,
        (DB.Exec srv repo.db (DeleteMutipleAccounts_query ids.length) args).2 = .ok res ∧
          res.rowsAffected = .ok n ∧ n ≤ 0) ∧
      (∀ n : Int, 0 < n →
        (DB.Exec srv repo.db (DeleteMutipleAccounts_query ids.length) args).2 = .ok ⟨.ok n⟩ →
        e = some (.text "No Accounts where deleted")) := by
  unfold DeleteMutipleAccounts at h
  dsimp only at h
  cases hargs : DeleteMutipleAccounts_args ids with
  | error x => simp [hargs] at h
  | ok args =>
    refine ⟨args, rfl, ?_⟩
    simp only [hargs] at h
    generalize DB.Exec srv repo.db (DeleteMutipleAccounts_query ids.length) args = r at h
    obtain ⟨db1, res⟩ := r
    cases res with
    | error x =>
      simp at h
      simp [← h.2]
    | ok result =>
      obtain ⟨ra⟩ := result
      cases ra with
      | error x =>
        simp at h
        simp [← h.2]
      | ok n =>
        by_cases hn : n > 0
        · simp [hn] at h
          simp [← h.2]
          omega
        · simp [hn] at h
          simp [← h.2]
          constructor
          · omega
          · intro m hm hmn
            omega

/-- C2 at a concrete input: the store holds accounts 1 and 2.  Deleting the absent id
7 returns a nil error with the table unchanged, and the handler answers 200;
deleting ids 1 and 2 removes both rows and returns the error
"No Accounts where deleted". -/
theorem DeleteMutipleAccounts_nil_iff_no_row_witness :
    DeleteMutipleAccounts memServer twoAccountsStore [some 7] = .ok (twoAccountsStore, none) ∧
      DeleteMutipleAccounts memServer twoAccountsStore [some 1, some 2] =
        .ok (⟨⟨false, ⟨some ⟨createAccountTable_columns, []⟩, some [], 3⟩⟩⟩,
          some (.text "No Accounts where deleted")) ∧
      handleMutipleAccountRemoval memServer ⟨":3000", twoAccountsStore⟩ ⟨[], none⟩
          ⟨"POST", "deleteMulti", .ok [some 7], .error (.text "not a transfer")⟩ =
        .ok (⟨":3000", twoAccountsStore⟩, ⟨[(200, .deleted [some 7])], none⟩, none) ∧
      ∃ args, DeleteMutipleAccounts_args [some 7] = .ok args ∧
        ((none : Option Error) = none ↔ ∃ res n,
          (DB.Exec memServer twoAccountsStore.db
            (DeleteMutipleAccounts_query [some (7 : Int)].length) args).2 = .ok res ∧
            res.rowsAffected = .ok n ∧ n ≤ 0) ∧
        (∀ n : Int, 0 < n →
          (DB.Exec memServer twoAccountsStore.db
            (DeleteMutipleAccounts_query [some (7 : Int)].length) args).2 = .ok ⟨.ok n⟩ →
          (none : Option Error) = some (.text "No Accounts where deleted")) :=
  ⟨by decide!, by decide!, by decide!,
    DeleteMutipleAccounts_nil_iff_no_row memServer twoAccountsStore twoAccountsStore
      [some 7] none (by decide!)⟩

/-! ## C8: the schema -/

/-- Rows that scan have exactly seven columns. -/
theorem scanIntoAccount_ok_length (sc : Strconv) (row : Row) (a : Account)
    (h : scanIntoAccount sc row = .ok a) : row.length = 7 := by
  unfold scanIntoAccount at h
  split at h
  · rfl
  · simp at h

/-- A row of any other width fails to scan with the arity error. -/
theorem scanIntoAccount_arity (sc : Strconv) (row : Row) (h : row.length ≠ 7) :
    scanIntoAccount sc row = .error (.scanArity row.length 7) := by
  unfold scanIntoAccount
  split
  · simp at h
  · rfl

/-- The columns the statement of `createAccountTable` declares. -/
theorem createAccountTable_columns_eq :
    createAccountTable_columns =
      ["id", "firstName", "lastName", "number", "balance", "createdAt"] := by
  decide

/-- C8 (the code departs from the claim): the table `createAccountTable` creates has
the six columns id, firstName, lastName, number, balance, createdAt and no
gold-member column, whereas `scanIntoAccount` reads seven fields and the
gold-member query filters on `gold_member`; so no row of the created table
scans. -/
theorem createAccountTable_schema :
    createAccountTable_columns =
        ["id", "firstName", "lastName", "number", "balance", "createdAt"] ∧
      createAccountTable_columns.length = 6 ∧
      scanIntoAccount_fields.length = 7 ∧
      whereColumn GetAccountsWithGoldMemberShip_query = "gold_member" ∧
      whereColumn GetAccountsWithGoldMemberShip_query ∉ createAccountTable_columns ∧
      "goldMember" ∉ createAccountTable_columns ∧
      (∀ (sc : Strconv) (row : Row), row.length = createAccountTable_columns.length →
        scanIntoAccount sc row = .error (.scanArity 6 7)) ∧
      (∀ (sc : Strconv) (row : Row) (a : Account), scanIntoAccount sc row = .ok a →
        row.length = scanIntoAccount_fields.length) := by
  have hcols := createAccountTable_columns_eq
  refine ⟨hcols, by rw [hcols]; rfl, rfl, by decide, by decide, by decide, ?_, ?_⟩
  · intro sc row hrow
    rw [hcols] at hrow
    have h6 : row.length = 6 := hrow
    have := scanIntoAccount_arity sc row (by omega)
    rw [h6] at this
    exact this
  · intro sc row a h
    exact scanIntoAccount_ok_length sc row a h

/-! ## C5: `GetAccountById` -/

/-- Account 1 of the two-account store is delivered as a six-column row, which does
not scan: `GetAccountById(1)` returns a nil account and a nil error. -/
theorem GetAccountById_twoAccounts (sc : Strconv) :
    GetAccountById sc memServer twoAccountsStore 1 = (twoAccountsStore, none, none) := by
  have hq : DB.Query memServer twoAccountsStore.db GetAccountById_query [⟨"id", .int 1⟩] =
      (twoAccountsStore.db,
        .ok [[.int 1, .str "Alex", .str "Rios", .int 42, .float 0, .time 1700000000]]) := by
    decide!
  unfold GetAccountById
  simp only [hq]
  rw [scanIntoAccount_arity sc _ (by decide)]

/-- C5 (the code departs from the claim): the four outcomes of `GetAccountById`.  A
query error is returned as it is; no row gives the error
"Account not found with id <id>"; a first row that scans gives the account and
a nil error; a first row whose scan fails gives a nil account together with a
nil error.  So it is for account 1 stored in the table the program creates,
and the handler answers that request with status 200 and a nil account. -/
theorem GetAccountById_outcomes {σ : Type} (sc : Strconv) (srv : Server σ) (repo : SQLStore σ)
    (id : Int) :
    (∀ e, (DB.Query srv repo.db GetAccountById_query [⟨"id", .int id⟩]).2 = .error e →
      (GetAccountById sc srv repo id).2 = (none, some e)) ∧
    ((DB.Query srv repo.db GetAccountById_query [⟨"id", .int id⟩]).2 = .ok [] →
      (GetAccountById sc srv repo id).2 =
        (none, some (.text ("Account not found with id " ++ toString id)))) ∧
    (∀ row rest a,
      (DB.Query srv repo.db GetAccountById_query [⟨"id", .int id⟩]).2 = .ok (row :: rest) →
      scanIntoAccount sc row = .ok a →
      (GetAccountById sc srv repo id).2 = (some a, none)) ∧
    (∀ row rest scanerr,
      (DB.Query srv repo.db GetAccountById_query [⟨"id", .int id⟩]).2 = .ok (row :: rest) →
      scanIntoAccount sc row = .error scanerr →
      (GetAccountById sc srv repo id).2 = (none, none)) ∧
    (GetAccountById sc memServer twoAccountsStore 1).2 = (none, none) ∧
    (handleGetAccountById sc memServer ⟨":3000", twoAccountsStore⟩ ⟨[], none⟩
        (getRequest "1")).2 =
      (⟨[(200, .account none)], none⟩, none) := by
  have hid : getId (getRequest "1") = (1, none) := by decide!
  refine ⟨?_, ?_, ?_, ?_, by rw [GetAccountById_twoAccounts], ?_⟩
  · intro e h
    simp [GetAccountById, h]
  · intro h
    simp [GetAccountById, h]
  · intro row rest a h hs
    simp [GetAccountById, h, hs]
  · intro row rest scanerr h hs
    simp [GetAccountById, h, hs]
  · simp [handleGetAccountById, hid, GetAccountById_twoAccounts, WriteJson]

/-! ## C6: gold members -/

/-- C6 (the code departs from the claim): whenever the gold-member query yields no
row or fails, `GetAccountsWithGoldMemberShip` returns the nil slice and the
GET /account handler returns an error, which is answered with status 400.
When the query yields no row the repository returns no error and the handler
returns "Accounts with gold membership returned nil"; when the query fails the
repository returns the query error. -/
theorem handleGetAccountsWithGoldMemberShip_no_account {σ : Type} (sc : Strconv)
    (srv : Server σ) (server : APIServer σ) (writer : ResponseWriter) (request : Request)
    (hq : (DB.Query srv server.accountRepo.db GetAccountsWithGoldMemberShip_query []).2 = .ok [] ∨
      ∃ e, (DB.Query srv server.accountRepo.db GetAccountsWithGoldMemberShip_query []).2 =
        .error e) :
    (GetAccountsWithGoldMemberShip sc srv server.accountRepo).2.1 = none ∧
      (∃ err, (handleGetAccountsWithGoldMemberShip sc srv server writer request).2.2 = some err ∧
        (convertToHttpHandleFunc
          (handleGetAccountsWithGoldMemberShip sc srv server writer request)).2.written.getLast? =
            some (400, .apiError err)) ∧
      ((DB.Query srv server.accountRepo.db GetAccountsWithGoldMemberShip_query []).2 = .ok [] →
        (GetAccountsWithGoldMemberShip sc srv server.accountRepo).2 = (none, none) ∧
          (handleGetAccountsWithGoldMemberShip sc srv server writer request).2 =
            (writer, some (.text "Accounts with gold membership returned nil"))) ∧
      (∀ e, (DB.Query srv server.accountRepo.db GetAccountsWithGoldMemberShip_query []).2 =
          .error e →
        (GetAccountsWithGoldMemberShip sc srv server.accountRepo).2 = (none, some e)) := by
  unfold handleGetAccountsWithGoldMemberShip GetAccountsWithGoldMemberShip
  generalize DB.Query srv server.accountRepo.db GetAccountsWithGoldMemberShip_query [] = r at hq
  obtain ⟨db1, res⟩ := r
  rcases hq with h | ⟨e, h⟩
  · simp only at h
    subst h
    simp [GetAccountsWithGoldMemberShip_loop, noResponseContentCheck, convertToHttpHandleFunc,
      WriteJson]
  · simp only at h
    subst h
    by_cases he : e = .errNoRows
    · subst he
      cases hw : writer.encodeErr with
      | none =>
        simp [noResponseContentCheck, convertToHttpHandleFunc, WriteJson, hw]
      | some x =>
        simp [noResponseContentCheck, convertToHttpHandleFunc, WriteJson, hw]
    · simp [noResponseContentCheck, convertToHttpHandleFunc, WriteJson, he]

/-- C6 at a concrete input: on the initialised store, where no account has the flag
set, the query fails for lack of the column, the repository returns that error
and GET /account is answered with status 400.  On a store whose table has the
column and no gold member, the handler returns
"Accounts with gold membership returned nil". -/
theorem handleGetAccountsWithGoldMemberShip_no_account_witness :
    (DB.Query memServer initServer.accountRepo.db GetAccountsWithGoldMemberShip_query []).2 =
        .error (.driver "Invalid column name") ∧
      handleGetAccountsWithGoldMemberShip sampleStrconv memServer initServer ⟨[], none⟩
          (getRequest "") =
        (initServer, ⟨[], none⟩, some (.driver "Invalid column name")) ∧
      (convertToHttpHandleFunc (handleGetAccountsWithGoldMemberShip sampleStrconv memServer
          initServer ⟨[], none⟩ (getRequest ""))).2 =
        ⟨[(400, .apiError (.driver "Invalid column name"))], none⟩ ∧
      (DB.Query memServer goldColumnStore.db GetAccountsWithGoldMemberShip_query []).2 = .ok [] ∧
      handleGetAccountsWithGoldMemberShip sampleStrconv memServer ⟨":3000", goldColumnStore⟩
          ⟨[], none⟩ (getRequest "") =
        (⟨":3000", goldColumnStore⟩, ⟨[], none⟩,
          some (.text "Accounts with gold membership returned nil")) ∧
      ((GetAccountsWithGoldMemberShip sampleStrconv memServer initServer.accountRepo).2.1 = none ∧
        (∃ err, (handleGetAccountsWithGoldMemberShip sampleStrconv memServer initServer
            ⟨[], none⟩ (getRequest "")).2.2 = some err ∧
          (convertToHttpHandleFunc (handleGetAccountsWithGoldMemberShip sampleStrconv memServer
            initServer ⟨[], none⟩ (getRequest ""))).2.written.getLast? =
              some (400, .apiError err)) ∧
        ((DB.Query memServer initServer.accountRepo.db GetAccountsWithGoldMemberShip_query []).2 =
            .ok [] →
          (GetAccountsWithGoldMemberShip sampleStrconv memServer initServer.accountRepo).2 =
              (none, none) ∧
            (handleGetAccountsWithGoldMemberShip sampleStrconv memServer initServer
              ⟨[], none⟩ (getRequest "")).2 =
              (⟨[], none⟩, some (.text "Accounts with gold membership returned nil"))) ∧
        (∀ e, (DB.Query memServer initServer.accountRepo.db
            GetAccountsWithGoldMemberShip_query []).2 = .error e →
          (GetAccountsWithGoldMemberShip sampleStrconv memServer initServer.accountRepo).2 =
            (none, some e))) :=
  ⟨by decide!, by decide!, by decide!, by decide!, by decide!,
    handleGetAccountsWithGoldMemberShip_no_account sampleStrconv memServer initServer
      ⟨[], none⟩ (getRequest "") (Or.inr ⟨.driver "Invalid column name", by decide!⟩)⟩

/-! ## C7: transfer -/

/-- C7 (as amended): for every store, hence for every pair of accounts A and B and
every amount X whatever the balance of A, `handleTransfer` leaves the store,
and with it both balances, unchanged; a request whose body decodes is answered
by writing the request back with status 200, and the only errors returned are
the decoding error and the error of writing the response.  `UpdateAccount`
likewise changes nothing and returns nil. -/
theorem handleTransfer_outcome {σ : Type} (srv : Server σ) (server : APIServer σ)
    (writer : ResponseWriter) (request : Request) :
    (handleTransfer srv server writer request).1 = server ∧
      (∀ t, request.bodyTransfer = .ok t →
        (handleTransfer srv server writer request).2 = WriteJson writer 200 (.transfer t)) ∧
      (∀ err, request.bodyTransfer = .error err →
        (handleTransfer srv server writer request).2 = (writer, some err)) ∧
      (∀ account, UpdateAccount srv server.accountRepo account = (server.accountRepo, none)) := by
  unfold handleTransfer
  refine ⟨?_, ?_, ?_, fun _ => rfl⟩
  · cases request.bodyTransfer <;> rfl
  · intro t h
    simp [h]
  · intro err h
    simp [h]

/-- C7, the claim as stated fails: accounts 1 and 2 exist, account 1 has balance 0,
and a transfer request of 50 to account 2 is answered with status 200 and a nil
error; no insufficient-funds error is returned. -/
theorem handleTransfer_no_insufficient_funds :
    MemDB.balance twoAccountsDB 1 = some (.float 0) ∧
      MemDB.balance twoAccountsDB 2 = some (.float 10) ∧
      (0 : Float64) < transferFifty.Amount ∧
      handleTransfer memServer ⟨":3000", twoAccountsStore⟩ ⟨[], none⟩
          ⟨"POST", "", .error (.text "EOF"), .ok transferFifty⟩ =
        (⟨":3000", twoAccountsStore⟩, ⟨[(200, .transfer transferFifty)], none⟩, none) := by
  decide!

/-! ## C10: the statement `DeleteMutipleAccounts` builds -/

theorem digitChar_value (d : Nat) (h : d < 10) : (Nat.digitChar d).toNat - 48 = d := by
  interval_cases d <;> rfl

theorem toDigitsCore_value (fuel : Nat) :
    ∀ (n : Nat) (ds : List Char), n < fuel →
      ∃ l, Nat.toDigitsCore 10 fuel n ds = l ++ ds ∧ digitsValue l = n := by
  induction fuel with
  | zero => intro n ds h; omega
  | succ f ih =>
    intro n ds h
    unfold Nat.toDigitsCore
    by_cases h0 : n / 10 = 0
    · simp only [h0, if_true]
      refine ⟨[Nat.digitChar (n % 10)], rfl, ?_⟩
      simp only [digitsValue, List.foldl]
      rw [digitChar_value _ (Nat.mod_lt _ (by norm_num))]
      omega
    · simp only [h0, if_false]
      obtain ⟨l, hl, hv⟩ := ih (n / 10) (Nat.digitChar (n % 10) :: ds) (by omega)
      refine ⟨l ++ [Nat.digitChar (n % 10)], by simp [hl], ?_⟩
      simp only [digitsValue, List.foldl_append, List.foldl] at hv ⊢
      rw [hv, digitChar_value _ (Nat.mod_lt _ (by norm_num))]
      omega

theorem toString_nat_injective : Function.Injective (fun n : Nat => toString n) := by
  intro a b h
  have ha := toDigitsCore_value (a + 1) a [] (by omega)
  have hb := toDigitsCore_value (b + 1) b [] (by omega)
  obtain ⟨la, hla, hva⟩ := ha
  obtain ⟨lb, hlb, hvb⟩ := hb
  have h2 : Nat.toDigits 10 a = Nat.toDigits 10 b := by
    have : (Nat.toDigits 10 a).asString = (Nat.toDigits 10 b).asString := h
    exact congrArg String.data this
  unfold Nat.toDigits at h2
  rw [hla, hlb] at h2
  simp only [List.append_nil] at h2
  rw [← hva, ← hvb, h2]


theorem foldl_set_replicate {α : Type} (f : Nat → α) (d : α) (n : Nat) :
    ∀ m, m ≤ n →
      (List.range m).foldl (fun l i => l.set i (f i)) (List.replicate n d) =
        (List.range m).map f ++ List.replicate (n - m) d := by
  intro m
  induction m with
  | zero => intro _; simp
  | succ m ih =>
    intro hm
    rw [List.range_succ, List.foldl_append, ih (by omega)]
    simp only [List.foldl, List.map_append, List.map_cons, List.map_nil]
    have hlen : ((List.range m).map f).length = m := by simp
    rw [List.set_append]
    simp only [hlen, lt_irrefl, if_false, Nat.sub_self]
    have : n - m = (n - (m + 1)) + 1 := by omega
    rw [this, List.replicate_succ]
    simp

theorem idsToQuery_eq (n : Nat) : DeleteMutipleAccounts_idsToQuery n = spec_placeholders n := by
  unfold DeleteMutipleAccounts_idsToQuery spec_placeholders
  rw [foldl_set_replicate (fun i => "@p" ++ toString (i + 1)) "" n n le_rfl]
  simp only [Nat.sub_self, List.replicate_zero, List.append_nil]
  rw [List.range'_eq_map_range, List.map_map]
  apply List.map_congr_left
  intro i _
  simp [Nat.add_comm]

theorem argsLoop_ok (vals : List Int) :
    ∀ (i : Nat) (pre : List NamedArg), pre.length = i →
      DeleteMutipleAccounts_argsLoop (vals.map some) i
          (pre ++ List.replicate vals.length nilArg) =
        .ok (pre ++ (List.zip (List.range' (i + 1) vals.length) vals).map
          (fun kv => ⟨"p" ++ toString kv.1, .int kv.2⟩)) := by
  induction vals with
  | nil => intro i pre _; simp [DeleteMutipleAccounts_argsLoop]
  | cons v rest ih =>
    intro i pre hpre
    simp only [List.map_cons, List.length_cons, DeleteMutipleAccounts_argsLoop]
    rw [List.set_append]
    simp only [hpre, lt_irrefl, if_false, Nat.sub_self, List.replicate_succ, List.set_cons_zero]
    have := ih (i + 1) (pre ++ [⟨"p" ++ toString (i + 1), .int v⟩]) (by simp [hpre])
    simp only [List.append_assoc, List.singleton_append] at this
    rw [this]
    simp [List.range'_succ]

theorem args_eq (vals : List Int) :
    DeleteMutipleAccounts_args (vals.map some) = .ok (spec_deleteArgs vals) := by
  unfold DeleteMutipleAccounts_args spec_deleteArgs
  have := argsLoop_ok vals 0 [] rfl
  simpa using this

theorem argsLoop_fails (ids : List (Option Int)) :
    ∀ (i : Nat) (args : List NamedArg),
      (DeleteMutipleAccounts_argsLoop ids i args = .error .nilDereference ↔ none ∈ ids) ∧
      (none ∉ ids → ∃ out, DeleteMutipleAccounts_argsLoop ids i args = .ok out) := by
  induction ids with
  | nil => intro i args; simp [DeleteMutipleAccounts_argsLoop]
  | cons id rest ih =>
    intro i args
    cases id with
    | none => simp [DeleteMutipleAccounts_argsLoop]
    | some v =>
      simp only [DeleteMutipleAccounts_argsLoop, List.mem_cons]
      have := ih (i + 1) (args.set i ⟨"p" ++ toString (i + 1), .int v⟩)
      constructor
      · rw [this.1]; simp
      · intro h
        exact this.2 (by simpa using h)

theorem string_append_left_cancel (p a b : String) (h : p ++ a = p ++ b) : a = b := by
  have := congrArg String.data h
  simp only [String.data_append] at this
  exact String.ext (List.append_cancel_left this)

theorem placeholder_injective (p : String) :
    Function.Injective (fun k : Nat => p ++ toString k) := by
  intro a b h
  exact toString_nat_injective (string_append_left_cancel p _ _ h)

theorem spec_placeholders_nodup (n : Nat) : (spec_placeholders n).Nodup := by
  unfold spec_placeholders
  exact (List.nodup_range' 1 n).map (placeholder_injective "@p")

theorem spec_deleteArgs_names (vals : List Int) :
    (spec_deleteArgs vals).map (fun a => a.name) =
      (List.range' 1 vals.length).map (fun k => "p" ++ toString k) := by
  unfold spec_deleteArgs
  rw [List.map_map]
  have : ((fun a : NamedArg => a.name) ∘ fun kv : Nat × Int =>
      (⟨"p" ++ toString kv.1, .int kv.2⟩ : NamedArg)) =
      (fun k : Nat => "p" ++ toString k) ∘ Prod.fst := by
    funext kv; rfl
  rw [this, ← List.map_map, List.map_fst_zip]
  simp

theorem spec_deleteArgs_getElem (vals : List Int) (k : Nat) :
    (spec_deleteArgs vals)[k]? =
      (vals[k]?).map (fun v => (⟨"p" ++ toString (k + 1), .int v⟩ : NamedArg)) := by
  unfold spec_deleteArgs
  rw [List.getElem?_map]
  by_cases hk : k < vals.length
  · have hz : ((List.range' 1 vals.length).zip vals)[k]? = some (k + 1, vals[k]) := by
      rw [List.getElem?_zip_eq_some]
      constructor
      · rw [List.getElem?_range' 1 1 hk]
        simp [Nat.add_comm]
      · exact List.getElem?_eq_getElem hk
    rw [hz, List.getElem?_eq_getElem hk]
    rfl
  · have h1 : vals[k]? = none := List.getElem?_eq_none (by omega)
    have h2 : ((List.range' 1 vals.length).zip vals)[k]? = none :=
      List.getElem?_eq_none (by simp; omega)
    rw [h1, h2]
    rfl

theorem query_eq (n : Nat) : DeleteMutipleAccounts_query n = spec_deleteStatement n := by
  unfold DeleteMutipleAccounts_query spec_deleteStatement
  rw [idsToQuery_eq]

theorem spec_placeholders_of_args (vals : List Int) :
    spec_placeholders vals.length = (spec_deleteArgs vals).map (fun a => "@" ++ a.name) := by
  have h := spec_deleteArgs_names vals
  have : (spec_deleteArgs vals).map (fun a => "@" ++ a.name) =
      ((spec_deleteArgs vals).map (fun a => a.name)).map (fun s => "@" ++ s) := by
    rw [List.map_map]; rfl
  rw [this, h, List.map_map]
  unfold spec_placeholders
  apply List.map_congr_left
  intro k _
  show "@p" ++ toString k = "@" ++ ("p" ++ toString k)
  rw [← String.append_assoc]
  rfl

theorem DeleteMutipleAccounts_abort_iff {σ : Type} (srv : Server σ) (repo : SQLStore σ)
    (ids : List (Option Int)) :
    DeleteMutipleAccounts srv repo ids = .error .nilDereference ↔ none ∈ ids := by
  have hf := argsLoop_fails ids 0 (List.replicate ids.length nilArg)
  unfold DeleteMutipleAccounts
  dsimp only
  by_cases hmem : none ∈ ids
  · have : DeleteMutipleAccounts_args ids = .error .nilDereference := hf.1.mpr hmem
    simp [this, hmem]
  · obtain ⟨out, hout⟩ := hf.2 hmem
    have : DeleteMutipleAccounts_args ids = .ok out := hout
    simp only [this, hmem, iff_false]
    intro h
    split at h <;> try split at h
    all_goals (first | (split at h <;> simp at h) | simp at h)

/-- C10: for ids that are all non-nil `DeleteMutipleAccounts` sends the statement
`DELETE FROM account_info WHERE id In (@p1, ..., @pn)`, with one placeholder per
id in increasing order separated by ", ", and n named arguments of which the
k-th is named `pk` and carries the k-th id; placeholders and argument names
are pairwise distinct and correspond one to one.  Building the arguments
panics exactly when some id is nil. -/
theorem DeleteMutipleAccounts_statement :
    (∀ vals : List Int,
      DeleteMutipleAccounts_query vals.length = spec_deleteStatement vals.length ∧
      DeleteMutipleAccounts_args (vals.map some) = .ok (spec_deleteArgs vals) ∧
      (spec_placeholders vals.length).length = vals.length ∧
      (spec_deleteArgs vals).length = vals.length ∧
      (∀ k, k < vals.length →
        (spec_placeholders vals.length)[k]? = some ("@p" ++ toString (k + 1))) ∧
      (∀ k, (spec_deleteArgs vals)[k]? =
        (vals[k]?).map (fun v => (⟨"p" ++ toString (k + 1), .int v⟩ : NamedArg))) ∧
      (spec_placeholders vals.length).Nodup ∧
      ((spec_deleteArgs vals).map (fun a => a.name)).Nodup ∧
      spec_placeholders vals.length = (spec_deleteArgs vals).map (fun a => "@" ++ a.name) ∧
      (∀ er qr, ∃ e,
        DeleteMutipleAccounts scripted (scriptedStore er qr) (vals.map some) =
          .ok (⟨⟨false, ⟨er, qr, [(spec_deleteStatement vals.length, spec_deleteArgs vals)]⟩⟩⟩,
            e))) ∧
    (∀ ids : List (Option Int),
      (DeleteMutipleAccounts_args ids = .error .nilDereference ↔ none ∈ ids) ∧
      (∀ (σ : Type) (srv : Server σ) (repo : SQLStore σ),
        DeleteMutipleAccounts srv repo ids = .error .nilDereference ↔ none ∈ ids)) := by
  constructor
  · intro vals
    refine ⟨query_eq _, args_eq vals, by simp [spec_placeholders], by simp [spec_deleteArgs],
      ?_, spec_deleteArgs_getElem vals, spec_placeholders_nodup _, ?_,
      spec_placeholders_of_args vals, ?_⟩
    · intro k hk
      unfold spec_placeholders
      rw [List.getElem?_map, List.getElem?_range' 1 1 hk]
      simp [Nat.add_comm]
    · rw [spec_deleteArgs_names]
      exact (List.nodup_range' 1 _).map (placeholder_injective "p")
    · intro er qr
      unfold DeleteMutipleAccounts
      simp only [List.length_map, args_eq vals, query_eq, scriptedStore, DB.Exec, scripted]
      cases er with
      | error x => exact ⟨some x, by simp⟩
      | ok res =>
        obtain ⟨ra⟩ := res
        cases ra with
        | error x => exact ⟨some x, by simp⟩
        | ok n =>
          by_cases hn : n > 0
          · exact ⟨some (.text "No Accounts where deleted"), by simp [hn]⟩
          · exact ⟨none, by simp [hn]⟩
  · intro ids
    exact ⟨(argsLoop_fails ids 0 _).1, fun σ srv repo => DeleteMutipleAccounts_abort_iff srv repo ids⟩

end BankApi
